import Mathlib

/-!
# Shallow embedding of the ADA staking calculator (`src/main.rs`)

The program is a single-file Rust CLI tool.  Its computational core is
`calculate_staked_pool`, a day-stepped simulation of a staked position:
a balance receives a reward every `epoch_in_days` days and a price is
multiplied by a daily drift factor every day.

Modelling choices:
* Rust `f64` values are modelled as exact rationals `ℚ` (the idealised
  real arithmetic the program approximates).
* Rust `u64` values are modelled as `Nat`.
* `((pool.years_holding as f64) * 365.25) as u64` truncates toward zero;
  since the operand is non-negative this is `Nat` floor division:
  `years_holding * 1461 / 4`.
* The Rust expression `day % pool.epoch_in_days` panics when
  `epoch_in_days == 0`; the loop is therefore embedded as an
  `Option`-valued fold, `none` standing for the runtime panic.
  (`&&` short-circuits in Rust, so `day % epoch` is only evaluated when
  `day > 0`; the embedding mirrors this.)
* Printing (`println!`) and file output are effect-free with respect to
  the returned result and are not modelled; the CSV string buffer is
  likewise write-only.
-/

/-- Configuration record parsed from `pool.json` (struct `StakedCardanoPool`). -/
structure StakedCardanoPool where
  ada : ℚ
  fetch_price_via_api : Bool
  initial_price : ℚ
  price_yield : ℚ
  annual_yield : ℚ
  epoch_in_days : Nat
  years_holding : Nat
deriving Repr, DecidableEq

/-- CLI flags (struct `CommandOptions`). -/
structure CommandOptions where
  verbose : Bool
  generate_csv : Bool
  generate_graph : Bool
deriving Repr, DecidableEq

/-- Result record (struct `StakedCardanoPoolResult`). -/
structure StakedCardanoPoolResult where
  final_ada_amount : ℚ
  final_ada_price : ℚ
  amount_historical : List ℚ
  price_historical : List ℚ
  days_as_float : ℚ
deriving Repr, DecidableEq

/-- `self.final_ada_amount * self.final_ada_price` (method `total`). -/
def StakedCardanoPoolResult.total (r : StakedCardanoPoolResult) : ℚ :=
  r.final_ada_amount * r.final_ada_price

/-- `(self.total() / (pool_info.initial_price * pool_info.ada)) * 100.0`
(method `yield_as_percentage`).  In `ℚ` division by zero yields the junk
value `0`; in the Rust source it is an `f64` division producing NaN/Inf.
The predicate `yield_divisor_is_zero` below identifies exactly those inputs. -/
def StakedCardanoPoolResult.yield_as_percentage (r : StakedCardanoPoolResult)
    (pool : StakedCardanoPool) : ℚ :=
  r.total / (pool.initial_price * pool.ada) * 100

/-- The divisor of `yield_as_percentage` is zero: on these inputs the Rust
`f64` division produces a non-finite value (NaN) that flows into the
`Gainz:` report line unchecked. -/
def yield_divisor_is_zero (pool : StakedCardanoPool) : Prop :=
  pool.initial_price * pool.ada = 0

instance (pool : StakedCardanoPool) : Decidable (yield_divisor_is_zero pool) := by
  unfold yield_divisor_is_zero; infer_instance

/-- `let days = ((pool.years_holding as f64) * 365.25) as u64 + 1;`
`years_holding * 365.25 = years_holding * 1461 / 4` and the `as u64` cast
truncates, i.e. floor division on the non-negative operand. -/
def totalDays (pool : StakedCardanoPool) : Nat :=
  pool.years_holding * 1461 / 4 + 1

/-- `let epochs_per_year = 365.25 / (pool.epoch_in_days as f64);`
computed once from the configuration, before the loop. -/
def epochsPerYear (pool : StakedCardanoPool) : ℚ :=
  (1461 / 4 : ℚ) / (pool.epoch_in_days : ℚ)

/-- Mutable loop state of `calculate_staked_pool`: the local variables
`ada`, `price`, `ada_per_year` and the history vectors `adas`, `prices`. -/
structure SimState where
  ada : ℚ
  price : ℚ
  ada_per_year : ℚ
  adas : List ℚ
  prices : List ℚ
deriving Repr, DecidableEq

/-- One iteration of the `for day in 1..days` loop body.  Pushes the
start-of-day snapshot when `generate_graph` is set, then tests
`day > 0 && (day % pool.epoch_in_days) == 0` (short-circuit: the modulo,
which panics on a zero divisor, is only reached when `day > 0`); on a
payout day `ada += ada_per_year / epochs_per_year` and
`ada_per_year = ada * pool.annual_yield` are applied, then in every case
`price *= pool.price_yield`.  `none` models the Rust panic on `% 0`. -/
def dayStep (pool : StakedCardanoPool) (args : CommandOptions) (day : Nat)
    (s : SimState) : Option SimState :=
  let s :=
    if args.generate_graph then
      { s with adas := s.adas ++ [s.ada], prices := s.prices ++ [s.price] }
    else s
  if 0 < day then
    if pool.epoch_in_days = 0 then
      none
    else if day % pool.epoch_in_days = 0 then
      let newAda := s.ada + s.ada_per_year / epochsPerYear pool
      some { s with ada := newAda,
                    ada_per_year := newAda * pool.annual_yield,
                    price := s.price * pool.price_yield }
    else
      some { s with price := s.price * pool.price_yield }
  else
    some { s with price := s.price * pool.price_yield }

/-- Runs the loop body over the given list of day indices, stopping with
`none` if an iteration panics. -/
def runDays (pool : StakedCardanoPool) (args : CommandOptions) :
    List Nat → SimState → Option SimState
  | [], s => some s
  | d :: ds, s =>
    match dayStep pool args d s with
    | none => none
    | some s2 => runDays pool args ds s2

/-- The numeric components of the loop state: the local variables
`ada`, `ada_per_year`, `price` without the history vectors. -/
structure NumState where
  ada : ℚ
  ada_per_year : ℚ
  price : ℚ
deriving Repr, DecidableEq

/-- The numeric effect of one loop iteration (derived restatement of the
numeric part of `dayStep`; the correspondence is proved in
`runDays_bridge` below). -/
def numStep (pool : StakedCardanoPool) (day : Nat) (s : NumState) : NumState :=
  if 0 < day ∧ day % pool.epoch_in_days = 0 then
    let newAda := s.ada + s.ada_per_year / epochsPerYear pool
    { ada := newAda
      ada_per_year := newAda * pool.annual_yield
      price := s.price * pool.price_yield }
  else
    { s with price := s.price * pool.price_yield }

/-- Numeric state at the start of day `n + 1`, i.e. after the loop has
processed days `1, …, n` (day `0` is the initial state). -/
def numState (pool : StakedCardanoPool) : Nat → NumState
  | 0 =>
    { ada := pool.ada
      ada_per_year := pool.ada * pool.annual_yield
      price := pool.initial_price }
  | n + 1 => numStep pool (n + 1) (numState pool n)

/-- `calculate_staked_pool`: initialises the state from the configuration,
runs `for day in 1..days`, and packages the result.  (The two arms of the
final `if args.generate_graph` in the source build the identical value, as
its comments note, so a single constructor call is faithful.) -/
def calculate_staked_pool (pool : StakedCardanoPool) (args : CommandOptions) :
    Option StakedCardanoPoolResult :=
  match runDays pool args (List.range' 1 (totalDays pool - 1))
      { ada := pool.ada
        price := pool.initial_price
        ada_per_year := pool.ada * pool.annual_yield
        adas := []
        prices := [] } with
  | none => none
  | some s =>
    some { final_ada_amount := s.ada
           final_ada_price := s.price
           amount_historical := s.adas
           price_historical := s.prices
           days_as_float := (totalDays pool : ℚ) }

/-! ## Concrete configurations used by counterexamples and witnesses -/

def c2pool : StakedCardanoPool :=
  { ada := 1000, fetch_price_via_api := false, initial_price := 1,
    price_yield := 1, annual_yield := 1/20, epoch_in_days := 5, years_holding := 3 }

def c1wpool : StakedCardanoPool :=
  { ada := 1000, fetch_price_via_api := false, initial_price := 1,
    price_yield := 1, annual_yield := 1/20, epoch_in_days := 5, years_holding := 1 }

def c1wargs : CommandOptions :=
  { verbose := false, generate_csv := false, generate_graph := false }

def c1ws : SimState :=
  { ada := 1000, price := 1, ada_per_year := 50, adas := [], prices := [] }

def c3wpool : StakedCardanoPool :=
  { ada := 1000, fetch_price_via_api := false, initial_price := 3,
    price_yield := 1, annual_yield := 0, epoch_in_days := 5, years_holding := 1 }

def c3wargs : CommandOptions :=
  { verbose := false, generate_csv := false, generate_graph := false }

def c3wr : StakedCardanoPoolResult :=
  { final_ada_amount := 1000, final_ada_price := 3,
    amount_historical := [], price_historical := [], days_as_float := 366 }

def c4pool : StakedCardanoPool :=
  { ada := 1000, fetch_price_via_api := false, initial_price := 1,
    price_yield := 1, annual_yield := -1, epoch_in_days := 5, years_holding := 1 }

def c4args : CommandOptions :=
  { verbose := false, generate_csv := false, generate_graph := true }

def c4wpool : StakedCardanoPool :=
  { ada := 1000, fetch_price_via_api := false, initial_price := 1,
    price_yield := 1, annual_yield := 1/20, epoch_in_days := 5, years_holding := 1 }

def c4wargs : CommandOptions :=
  { verbose := false, generate_csv := false, generate_graph := true }

def c4wr : StakedCardanoPoolResult :=
  (calculate_staked_pool c4wpool c4wargs).getD
    { final_ada_amount := 0, final_ada_price := 0,
      amount_historical := [], price_historical := [], days_as_float := 0 }

def c5pool : StakedCardanoPool :=
  { ada := 1000, fetch_price_via_api := false, initial_price := 1,
    price_yield := 1, annual_yield := 1/20, epoch_in_days := 5, years_holding := 1 }

def c5args : CommandOptions :=
  { verbose := false, generate_csv := false, generate_graph := true }

def c5wr : StakedCardanoPoolResult :=
  (calculate_staked_pool c5pool c5args).getD
    { final_ada_amount := 0, final_ada_price := 0,
      amount_historical := [], price_historical := [], days_as_float := 0 }

def c6pool : StakedCardanoPool :=
  { ada := 1000, fetch_price_via_api := false, initial_price := 1,
    price_yield := 1, annual_yield := 1/20, epoch_in_days := 0, years_holding := 1 }

def c6pool0 : StakedCardanoPool :=
  { ada := 1000, fetch_price_via_api := false, initial_price := 1,
    price_yield := 1, annual_yield := 1/20, epoch_in_days := 0, years_holding := 0 }

def c6args : CommandOptions :=
  { verbose := false, generate_csv := false, generate_graph := false }

def c7pool : StakedCardanoPool :=
  { ada := 0, fetch_price_via_api := false, initial_price := 1,
    price_yield := 1, annual_yield := 1/20, epoch_in_days := 5, years_holding := 1 }

def c7args : CommandOptions :=
  { verbose := false, generate_csv := false, generate_graph := false }

def c8wpool : StakedCardanoPool :=
  { ada := 250, fetch_price_via_api := true, initial_price := 2,
    price_yield := 101/100, annual_yield := 1/20, epoch_in_days := 5, years_holding := 0 }

def c8wargs : CommandOptions :=
  { verbose := true, generate_csv := true, generate_graph := true }

/-! ## Correspondence between the loop and the numeric evolution -/

lemma dayStep_run (pool : StakedCardanoPool) (args : CommandOptions) (day : Nat)
    (s : SimState) (hd : 0 < day) (he : pool.epoch_in_days ≠ 0) :
    dayStep pool args day s =
      some { ada := (numStep pool day ⟨s.ada, s.ada_per_year, s.price⟩).ada
             price := (numStep pool day ⟨s.ada, s.ada_per_year, s.price⟩).price
             ada_per_year := (numStep pool day ⟨s.ada, s.ada_per_year, s.price⟩).ada_per_year
             adas := if args.generate_graph then s.adas ++ [s.ada] else s.adas
             prices := if args.generate_graph then s.prices ++ [s.price] else s.prices } := by
  unfold dayStep numStep
  by_cases hg : args.generate_graph <;>
    by_cases hpay : day % pool.epoch_in_days = 0 <;>
      simp [hg, hd, he, hpay]

lemma runDays_bridge (pool : StakedCardanoPool) (args : CommandOptions)
    (he : pool.epoch_in_days ≠ 0) :
    ∀ (n m : Nat) (s : SimState),
      s.ada = (numState pool m).ada →
      s.ada_per_year = (numState pool m).ada_per_year →
      s.price = (numState pool m).price →
      ∃ t : SimState,
        runDays pool args (List.range' (m + 1) n) s = some t ∧
        t.ada = (numState pool (m + n)).ada ∧
        t.ada_per_year = (numState pool (m + n)).ada_per_year ∧
        t.price = (numState pool (m + n)).price ∧
        t.adas = s.adas ++
          (if args.generate_graph then
            (List.range' m n).map (fun k => (numState pool k).ada) else []) ∧
        t.prices = s.prices ++
          (if args.generate_graph then
            (List.range' m n).map (fun k => (numState pool k).price) else []) := by
  intro n
  induction n with
  | zero =>
    intro m s h1 h2 h3
    refine ⟨s, ?_, h1, h2, h3, ?_, ?_⟩ <;> simp [runDays]
  | succ n ih =>
    intro m s h1 h2 h3
    have hnum : (⟨s.ada, s.ada_per_year, s.price⟩ : NumState) = numState pool m := by
      rw [h1, h2, h3]
    have hstep := dayStep_run pool args (m + 1) s (Nat.succ_pos m) he
    rw [hnum] at hstep
    have hmstate : numStep pool (m + 1) (numState pool m) = numState pool (m + 1) := rfl
    rw [hmstate] at hstep
    obtain ⟨t, ht, ta, tr, tp, thA, thP⟩ :=
      ih (m + 1)
        { ada := (numState pool (m + 1)).ada
          price := (numState pool (m + 1)).price
          ada_per_year := (numState pool (m + 1)).ada_per_year
          adas := if args.generate_graph then s.adas ++ [s.ada] else s.adas
          prices := if args.generate_graph then s.prices ++ [s.price] else s.prices }
        rfl rfl rfl
    have hmn : m + 1 + n = m + (n + 1) := by omega
    rw [hmn] at ta tr tp
    have hrange : List.range' (m + 1) (n + 1) = (m + 1) :: List.range' (m + 2) n := rfl
    have hrange2 : List.range' m (n + 1) = m :: List.range' (m + 1) n := rfl
    refine ⟨t, ?_, ta, tr, tp, ?_, ?_⟩
    · rw [hrange]
      simp only [runDays, hstep]
      exact ht
    · rw [thA, hrange2]
      by_cases hg : args.generate_graph <;> simp [hg, h1]
    · rw [thP, hrange2]
      by_cases hg : args.generate_graph <;> simp [hg, h3]

/-- What a successful run returns, in closed form: under `epoch_in_days ≠ 0`
`calculate_staked_pool` always succeeds and its result is the numeric
evolution at day `totalDays - 1`, with histories the start-of-day
snapshots of days `1 … totalDays - 1`. -/
lemma calculate_eq (pool : StakedCardanoPool) (args : CommandOptions)
    (he : pool.epoch_in_days ≠ 0) :
    calculate_staked_pool pool args =
      some { final_ada_amount := (numState pool (totalDays pool - 1)).ada
             final_ada_price := (numState pool (totalDays pool - 1)).price
             amount_historical :=
               if args.generate_graph then
                 (List.range (totalDays pool - 1)).map (fun k => (numState pool k).ada)
               else []
             price_historical :=
               if args.generate_graph then
                 (List.range (totalDays pool - 1)).map (fun k => (numState pool k).price)
               else []
             days_as_float := (totalDays pool : ℚ) } := by
  obtain ⟨t, ht, ta, tr, tp, thA, thP⟩ :=
    runDays_bridge pool args he (totalDays pool - 1) 0
      { ada := pool.ada
        price := pool.initial_price
        ada_per_year := pool.ada * pool.annual_yield
        adas := []
        prices := [] }
      rfl rfl rfl
  unfold calculate_staked_pool
  rw [show (0 : Nat) + 1 = 1 from rfl] at ht
  simp only [ht]
  rw [List.range_eq_range']
  simp only [Nat.zero_add] at ta tr tp thA thP
  simp [ta, tp, thA, thP]

/-- If `epoch_in_days = 0` and the loop has at least one iteration, the run
panics (`day % 0` in Rust). -/
lemma calculate_epoch_zero (pool : StakedCardanoPool) (args : CommandOptions)
    (he : pool.epoch_in_days = 0) (hd : 1 < totalDays pool) :
    calculate_staked_pool pool args = none := by
  unfold calculate_staked_pool
  obtain ⟨n, hn⟩ : ∃ n, totalDays pool - 1 = n + 1 :=
    ⟨totalDays pool - 2, by omega⟩
  rw [hn]
  have h1 : dayStep pool args 1
      { ada := pool.ada, price := pool.initial_price,
        ada_per_year := pool.ada * pool.annual_yield, adas := [], prices := [] } = none ∨
      ∀ s, dayStep pool args 1 s = none := by
    right
    intro s
    unfold dayStep
    simp [he]
  cases h1 with
  | inl h => simp [List.range', runDays, h]
  | inr h => simp [List.range', runDays, h]

/-- When `years_holding = 0` the loop is empty and the run returns the
initial state unchanged (whatever `epoch_in_days` is). -/
lemma calculate_years_zero (pool : StakedCardanoPool) (args : CommandOptions)
    (hy : pool.years_holding = 0) :
    calculate_staked_pool pool args =
      some { final_ada_amount := pool.ada
             final_ada_price := pool.initial_price
             amount_historical := []
             price_historical := []
             days_as_float := 1 } := by
  unfold calculate_staked_pool totalDays
  rw [hy]
  simp [runDays]

/-- Inversion: any successful run returns exactly the closed form of
`calculate_eq`. -/
lemma calculate_some_inv (pool : StakedCardanoPool) (args : CommandOptions)
    (r : StakedCardanoPoolResult)
    (h : calculate_staked_pool pool args = some r) :
    r = { final_ada_amount := (numState pool (totalDays pool - 1)).ada
          final_ada_price := (numState pool (totalDays pool - 1)).price
          amount_historical :=
            if args.generate_graph then
              (List.range (totalDays pool - 1)).map (fun k => (numState pool k).ada)
            else []
          price_historical :=
            if args.generate_graph then
              (List.range (totalDays pool - 1)).map (fun k => (numState pool k).price)
            else []
          days_as_float := (totalDays pool : ℚ) } := by
  by_cases he : pool.epoch_in_days = 0
  · have hd : ¬ 1 < totalDays pool := by
      intro hlt
      rw [calculate_epoch_zero pool args he hlt] at h
      exact Option.noConfusion h
    have hone : totalDays pool = 1 := by
      have : 1 ≤ totalDays pool := Nat.le_add_left 1 _
      omega
    have hy : pool.years_holding * 1461 / 4 = 0 := by
      have := hone
      unfold totalDays at this
      omega
    have := calculate_years_zero pool args ?hyz
    case hyz =>
      by_contra hne
      have h4 : 4 ≤ pool.years_holding * 1461 := by
        have : 1 ≤ pool.years_holding := Nat.one_le_iff_ne_zero.mpr hne
        calc 4 ≤ 1 * 1461 := by omega
        _ ≤ pool.years_holding * 1461 := Nat.mul_le_mul_right _ this
      have : 1 ≤ pool.years_holding * 1461 / 4 := Nat.one_le_div_iff (by omega) |>.mpr h4
      omega
    rw [this] at h
    have hr := Option.some_injective _ h
    rw [← hr, hone]
    simp [numState]
  · rw [calculate_eq pool args he] at h
    exact (Option.some_injective _ h).symm

/-! ## Facts about the numeric evolution -/

lemma epochsPerYear_nonneg (pool : StakedCardanoPool) : 0 ≤ epochsPerYear pool := by
  unfold epochsPerYear
  positivity

/-- The price component is multiplied by `price_yield` on every day,
payout or not. -/
lemma numState_price (pool : StakedCardanoPool) (n : Nat) :
    (numState pool n).price = pool.initial_price * pool.price_yield ^ n := by
  induction n with
  | zero => simp [numState]
  | succ n ih =>
    rw [numState, numStep]
    split <;> simp [ih, pow_succ, mul_assoc]

/-- With a non-negative yield and a non-negative starting amount, the
balance and the reward rate stay non-negative. -/
lemma numState_nonneg (pool : StakedCardanoPool)
    (hy : 0 ≤ pool.annual_yield) (ha : 0 ≤ pool.ada) (n : Nat) :
    0 ≤ (numState pool n).ada ∧ 0 ≤ (numState pool n).ada_per_year := by
  induction n with
  | zero => exact ⟨ha, mul_nonneg ha hy⟩
  | succ n ih =>
    rw [numState, numStep]
    split
    · have hada : 0 ≤ (numState pool n).ada + (numState pool n).ada_per_year / epochsPerYear pool :=
        add_nonneg ih.1 (div_nonneg ih.2 (epochsPerYear_nonneg pool))
      exact ⟨hada, mul_nonneg hada hy⟩
    · exact ih

/-- With a non-negative yield and starting amount, the balance never
decreases from one day to the next. -/
lemma numState_ada_mono (pool : StakedCardanoPool)
    (hy : 0 ≤ pool.annual_yield) (ha : 0 ≤ pool.ada) (n : Nat) :
    (numState pool n).ada ≤ (numState pool (n + 1)).ada := by
  rw [numState, numStep]
  split
  · exact le_add_of_nonneg_right
      (div_nonneg (numState_nonneg pool hy ha n).2 (epochsPerYear_nonneg pool))
  · exact le_refl _

lemma numState_ada_mono_le (pool : StakedCardanoPool)
    (hy : 0 ≤ pool.annual_yield) (ha : 0 ≤ pool.ada) {m n : Nat} (h : m ≤ n) :
    (numState pool m).ada ≤ (numState pool n).ada := by
  induction n with
  | zero => simp_all
  | succ n ih =>
    rcases Nat.lt_or_ge m (n + 1) with hlt | hge
    · exact le_trans (ih (by omega)) (numState_ada_mono pool hy ha n)
    · have : m = n + 1 := by omega
      subst this
      exact le_refl _

/-- The balance component changes only when the day index is a payout day. -/
lemma numState_ada_change (pool : StakedCardanoPool) (n : Nat)
    (h : (numState pool (n + 1)).ada ≠ (numState pool n).ada) :
    (n + 1) % pool.epoch_in_days = 0 := by
  by_contra hpay
  apply h
  rw [numState, numStep]
  simp [hpay]

/-! ## helper congruence lemmas -/

lemma dayStep_congr (p q : StakedCardanoPool) (args : CommandOptions) (d : Nat)
    (s : SimState) (he : p.epoch_in_days = q.epoch_in_days)
    (hy : p.annual_yield = q.annual_yield) (hp : p.price_yield = q.price_yield) :
    dayStep p args d s = dayStep q args d s := by
  unfold dayStep epochsPerYear
  rw [he, hy, hp]

lemma runDays_congr (p q : StakedCardanoPool) (args : CommandOptions)
    (he : p.epoch_in_days = q.epoch_in_days)
    (hy : p.annual_yield = q.annual_yield) (hp : p.price_yield = q.price_yield) :
    ∀ (ds : List Nat) (s : SimState), runDays p args ds s = runDays q args ds s := by
  intro ds
  induction ds with
  | nil => intro s; rfl
  | cons d ds ih =>
    intro s
    unfold runDays
    rw [dayStep_congr p q args d s he hy hp]
    cases dayStep q args d s with
    | none => rfl
    | some s2 => exact ih s2

/-- C9: the `fetch_price_via_api` configuration field has no effect on the
computation: two configurations identical except for that flag produce
identical results from `calculate_staked_pool` (same final balance, final
price and histories). -/
theorem c9_fetch_flag_no_effect (pool : StakedCardanoPool) (args : CommandOptions)
    (b : Bool) :
    calculate_staked_pool { pool with fetch_price_via_api := b } args =
      calculate_staked_pool pool args := by
  have h := runDays_congr { pool with fetch_price_via_api := b } pool args rfl rfl rfl
  unfold calculate_staked_pool
  rw [h]
  rfl

/-- C2 (amended): for every configuration the total number of simulated
days computed by `calculate_staked_pool` equals
`floor(years_holding * 365.25) + 1` (truncation toward zero of the
non-negative product, as the Rust `as u64` cast performs), not rounding to
the nearest integer. -/
theorem c2_total_days_floor (pool : StakedCardanoPool) :
    (totalDays pool : ℤ) = ⌊(pool.years_holding : ℚ) * 365.25⌋ + 1 := by
  have h1 : (pool.years_holding : ℚ) * 365.25 =
      ((pool.years_holding * 1461 : ℕ) : ℚ) / ((4 : ℕ) : ℚ) := by
    push_cast
    norm_num
    ring
  have hnn : 0 ≤ (pool.years_holding : ℚ) * 365.25 := by positivity
  rw [← Int.natCast_floor_eq_floor hnn, h1, Nat.floor_div_eq_div]
  unfold totalDays
  push_cast
  ring

/-- C2 (counterexample): the claim says the day count is
`round(years_holding * 365.25) + 1` with rounding to the nearest integer.
At `years_holding = 3` the code computes `(3 * 365.25) as u64 + 1 = 1096`
(truncation of 1095.75), while the integer nearest to 1095.75 is 1096,
giving 1097 total days: the two disagree. -/
theorem c2_round_counterexample :
    totalDays c2pool = 1096 ∧
    round ((c2pool.years_holding : ℚ) * 365.25) + 1 = 1097 ∧
    ((1096 : ℤ) = 1097) = False := by
  refine ⟨rfl, ?_, by simp⟩
  have h2 : round ((c2pool.years_holding : ℚ) * 365.25) = 1096 := by
    show round ((3 : ℕ) * (365.25 : ℚ)) = 1096
    rw [round_eq]
    norm_num
  rw [h2]
  rfl

/-- C1: in the loop body of `calculate_staked_pool`, a payout occurs on
day `d` iff `d > 0` and `d % epoch_in_days = 0`; on a payout day the
balance is increased by `annual_reward_rate / epochs_per_year`, where
`epochs_per_year = 365.25 / epoch_in_days` is computed once from the
configuration, and immediately afterwards the reward rate is recomputed
as the new balance times `annual_yield`; the price is multiplied by
`price_yield` within the same day, unaffected by the payout. -/
theorem c1_payout_rule (pool : StakedCardanoPool) (args : CommandOptions)
    (day : Nat) (s : SimState) (he : pool.epoch_in_days ≠ 0) :
    ∃ s2 : SimState, dayStep pool args day s = some s2 ∧
      s2.ada = (if 0 < day ∧ day % pool.epoch_in_days = 0 then
                  s.ada + s.ada_per_year / epochsPerYear pool else s.ada) ∧
      s2.ada_per_year = (if 0 < day ∧ day % pool.epoch_in_days = 0 then
                  s2.ada * pool.annual_yield else s.ada_per_year) ∧
      s2.price = s.price * pool.price_yield ∧
      epochsPerYear pool = (365.25 : ℚ) / (pool.epoch_in_days : ℚ) := by
  have hepy : epochsPerYear pool = (365.25 : ℚ) / (pool.epoch_in_days : ℚ) := by
    unfold epochsPerYear
    norm_num
  rcases Nat.eq_zero_or_pos day with h0 | hd
  · subst h0
    by_cases hg : args.generate_graph
    · refine ⟨{ ada := s.ada, price := s.price * pool.price_yield,
                ada_per_year := s.ada_per_year, adas := s.adas ++ [s.ada],
                prices := s.prices ++ [s.price] }, ?_, ?_, ?_, ?_, hepy⟩ <;>
        simp [dayStep, hg]
    · refine ⟨{ s with price := s.price * pool.price_yield }, ?_, ?_, ?_, ?_, hepy⟩ <;>
        simp [dayStep, hg]
  · refine ⟨_, dayStep_run pool args day s hd he, ?_, ?_, ?_, hepy⟩ <;>
      · unfold numStep
        by_cases hpay : day % pool.epoch_in_days = 0 <;> simp [hd, hpay]

/-- C8: with `years_holding = 0` the total simulated day count is 1, the
loop body never executes, and the result equals the initial state exactly:
final balance is the configured ada amount and final price is
`initial_price`. -/
theorem c8_zero_years_identity (pool : StakedCardanoPool) (args : CommandOptions)
    (h : pool.years_holding = 0) :
    totalDays pool = 1 ∧
    calculate_staked_pool pool args =
      some { final_ada_amount := pool.ada
             final_ada_price := pool.initial_price
             amount_historical := []
             price_historical := []
             days_as_float := 1 } :=
  ⟨by unfold totalDays; rw [h], calculate_years_zero pool args h⟩

lemma dayStep_total (pool : StakedCardanoPool) (args : CommandOptions) (day : Nat)
    (s : SimState) :
    dayStep pool args day s =
      if 0 < day ∧ pool.epoch_in_days = 0 then none
      else
        some { ada := (numStep pool day ⟨s.ada, s.ada_per_year, s.price⟩).ada
               price := (numStep pool day ⟨s.ada, s.ada_per_year, s.price⟩).price
               ada_per_year := (numStep pool day ⟨s.ada, s.ada_per_year, s.price⟩).ada_per_year
               adas := if args.generate_graph then s.adas ++ [s.ada] else s.adas
               prices := if args.generate_graph then s.prices ++ [s.price] else s.prices } := by
  rcases Nat.eq_zero_or_pos day with h0 | hd
  · subst h0
    unfold dayStep numStep
    by_cases hg : args.generate_graph <;> simp [hg]
  · by_cases he : pool.epoch_in_days = 0
    · unfold dayStep
      by_cases hg : args.generate_graph <;> simp [hg, hd, he]
    · rw [dayStep_run pool args day s hd he]
      simp [hd, he]

lemma runDays_num_args (pool : StakedCardanoPool) (a1 a2 : CommandOptions) :
    ∀ (ds : List Nat) (s1 s2 : SimState),
      s1.ada = s2.ada → s1.ada_per_year = s2.ada_per_year → s1.price = s2.price →
      Option.map (fun t => (t.ada, t.ada_per_year, t.price)) (runDays pool a1 ds s1) =
      Option.map (fun t => (t.ada, t.ada_per_year, t.price)) (runDays pool a2 ds s2) := by
  intro ds
  induction ds with
  | nil =>
    intro s1 s2 h1 h2 h3
    simp [runDays, h1, h2, h3]
  | cons d ds ih =>
    intro s1 s2 h1 h2 h3
    have hnum : (⟨s1.ada, s1.ada_per_year, s1.price⟩ : NumState) =
        ⟨s2.ada, s2.ada_per_year, s2.price⟩ := by rw [h1, h2, h3]
    unfold runDays
    rw [dayStep_total pool a1 d s1, dayStep_total pool a2 d s2]
    by_cases hz : 0 < d ∧ pool.epoch_in_days = 0
    · simp [hz]
    · simp only [if_neg hz]
      exact ih _ _ (by rw [hnum]) (by rw [hnum]) (by rw [hnum])

/-- C10: the numeric simulation outcome is independent of the output-mode
flags: for a fixed configuration, every combination of `verbose`,
`generate_csv` and `generate_graph` yields the same `final_ada_amount`,
`final_ada_price` and `days_as_float` from `calculate_staked_pool`. -/
theorem c10_output_flags_no_numeric_effect (pool : StakedCardanoPool)
    (a1 a2 : CommandOptions) :
    Option.map (fun r => (r.final_ada_amount, r.final_ada_price, r.days_as_float))
        (calculate_staked_pool pool a1) =
      Option.map (fun r => (r.final_ada_amount, r.final_ada_price, r.days_as_float))
        (calculate_staked_pool pool a2) := by
  have h := runDays_num_args pool a1 a2 (List.range' 1 (totalDays pool - 1))
      { ada := pool.ada, price := pool.initial_price,
        ada_per_year := pool.ada * pool.annual_yield, adas := [], prices := [] }
      { ada := pool.ada, price := pool.initial_price,
        ada_per_year := pool.ada * pool.annual_yield, adas := [], prices := [] }
      rfl rfl rfl
  unfold calculate_staked_pool
  cases hr1 : runDays pool a1 (List.range' 1 (totalDays pool - 1))
      { ada := pool.ada, price := pool.initial_price,
        ada_per_year := pool.ada * pool.annual_yield, adas := [], prices := [] } with
  | none =>
    cases hr2 : runDays pool a2 (List.range' 1 (totalDays pool - 1))
        { ada := pool.ada, price := pool.initial_price,
          ada_per_year := pool.ada * pool.annual_yield, adas := [], prices := [] } with
    | none => rfl
    | some t2 =>
      rw [hr1, hr2] at h
      simp at h
  | some t1 =>
    cases hr2 : runDays pool a2 (List.range' 1 (totalDays pool - 1))
        { ada := pool.ada, price := pool.initial_price,
          ada_per_year := pool.ada * pool.annual_yield, adas := [], prices := [] } with
    | none =>
      rw [hr1, hr2] at h
      simp at h
    | some t2 =>
      rw [hr1, hr2] at h
      simp only [Option.map_some', Option.some.injEq, Prod.mk.injEq] at h
      obtain ⟨ha, hr, hp⟩ := h
      simp [ha, hp]

lemma range_getElem?_inv {n k j : Nat} (h : (List.range n)[k]? = some j) :
    j = k ∧ k < n := by
  rcases Nat.lt_or_ge k n with hlt | hge
  · rw [List.getElem?_range hlt] at h
    exact ⟨(Option.some_inj.mp h).symm, hlt⟩
  · rw [List.getElem?_eq_none (by simpa using hge)] at h
    exact absurd h (by simp)

/-- C3: in every successful run of `calculate_staked_pool` the price is
multiplied by `price_yield` exactly once per simulated day regardless of
payout timing, so the final price equals
`initial_price * price_yield ^ (totalDays - 1)` and the recorded
start-of-day price of day `k + 1` equals `initial_price * price_yield ^ k`. -/
theorem c3_price_trajectory (pool : StakedCardanoPool) (args : CommandOptions)
    (r : StakedCardanoPoolResult)
    (h : calculate_staked_pool pool args = some r) :
    r.final_ada_price = pool.initial_price * pool.price_yield ^ (totalDays pool - 1) ∧
    ∀ k p, r.price_historical[k]? = some p →
      p = pool.initial_price * pool.price_yield ^ k := by
  have hr := calculate_some_inv pool args r h
  subst hr
  constructor
  · exact numState_price pool (totalDays pool - 1)
  · intro k p hkp
    by_cases hg : args.generate_graph
    · simp only [hg, if_true, List.getElem?_map, Option.map_eq_some'] at hkp
      obtain ⟨j, hj, hjp⟩ := hkp
      obtain ⟨hjk, _⟩ := range_getElem?_inv hj
      rw [← hjp, hjk, numState_price]
    · simp [hg] at hkp

/-- C4 (amended): provided `annual_yield ≥ 0` and the starting amount is
non-negative, the balance in a run of `calculate_staked_pool` never
decreases from one day to the next: the final balance is at least the
starting one, consecutive recorded balances never decrease, and the last
recorded balance is at most the final balance.  Unconditionally — for
every configuration, negative yields included — the balance changes only
on payout days: consecutive recorded balances differ only when the later
day `k + 1` satisfies `(k + 1) % epoch_in_days = 0`, and the last recorded
balance differs from the final balance only when the last simulated day
`totalDays - 1` is a payout day.  (The unrestricted monotonicity claim is
refuted by `c4_monotone_counterexample`: a negative `annual_yield` makes
payouts decrease the balance.) -/
theorem c4_balance_monotone (pool : StakedCardanoPool) (args : CommandOptions)
    (r : StakedCardanoPoolResult)
    (h : calculate_staked_pool pool args = some r) :
    (0 ≤ pool.annual_yield → 0 ≤ pool.ada →
      pool.ada ≤ r.final_ada_amount ∧
      (∀ k a b, r.amount_historical[k]? = some a →
        r.amount_historical[k + 1]? = some b → a ≤ b) ∧
      (∀ a, r.amount_historical[r.amount_historical.length - 1]? = some a →
        a ≤ r.final_ada_amount)) ∧
    (∀ k a b, r.amount_historical[k]? = some a →
      r.amount_historical[k + 1]? = some b → a ≠ b →
      (k + 1) % pool.epoch_in_days = 0) ∧
    (∀ a, r.amount_historical[r.amount_historical.length - 1]? = some a →
      a ≠ r.final_ada_amount → (totalDays pool - 1) % pool.epoch_in_days = 0) := by
  have hr := calculate_some_inv pool args r h
  subst hr
  refine ⟨fun hy ha => ⟨numState_ada_mono_le pool hy ha (Nat.zero_le _), ?_, ?_⟩, ?_, ?_⟩
  · intro k a b hka hkb
    by_cases hg : args.generate_graph
    · simp only [hg, if_true, List.getElem?_map, Option.map_eq_some'] at hka hkb
      obtain ⟨j, hj, hja⟩ := hka
      obtain ⟨j2, hj2, hj2b⟩ := hkb
      obtain ⟨hjk, _⟩ := range_getElem?_inv hj
      obtain ⟨hj2k, _⟩ := range_getElem?_inv hj2
      rw [← hja, ← hj2b, hjk, hj2k]
      exact numState_ada_mono pool hy ha k
    · simp [hg] at hka
  · intro a hla
    by_cases hg : args.generate_graph
    · simp only [hg, if_true, List.length_map, List.length_range,
        List.getElem?_map, Option.map_eq_some'] at hla
      obtain ⟨j, hj, hja⟩ := hla
      obtain ⟨hjk, hjlt⟩ := range_getElem?_inv hj
      rw [← hja, hjk]
      have hn : totalDays pool - 1 - 1 + 1 = totalDays pool - 1 := by omega
      calc (numState pool (totalDays pool - 1 - 1)).ada
          ≤ (numState pool (totalDays pool - 1 - 1 + 1)).ada :=
            numState_ada_mono pool hy ha _
        _ = (numState pool (totalDays pool - 1)).ada := by rw [hn]
    · simp [hg] at hla
  · intro k a b hka hkb hne
    by_cases hg : args.generate_graph
    · simp only [hg, if_true, List.getElem?_map, Option.map_eq_some'] at hka hkb
      obtain ⟨j, hj, hja⟩ := hka
      obtain ⟨j2, hj2, hj2b⟩ := hkb
      obtain ⟨hjk, _⟩ := range_getElem?_inv hj
      obtain ⟨hj2k, _⟩ := range_getElem?_inv hj2
      refine numState_ada_change pool k (fun hc => hne ?_)
      rw [← hja, ← hj2b, hjk, hj2k, hc]
    · simp [hg] at hka
  · intro a hla hne
    by_cases hg : args.generate_graph
    · simp only [hg, if_true, List.length_map, List.length_range,
        List.getElem?_map, Option.map_eq_some'] at hla
      obtain ⟨j, hj, hja⟩ := hla
      obtain ⟨hjk, hjlt⟩ := range_getElem?_inv hj
      have hn : totalDays pool - 1 - 1 + 1 = totalDays pool - 1 := by omega
      have hchange := numState_ada_change pool (totalDays pool - 1 - 1)
      rw [hn] at hchange
      exact hchange (fun hc => hne (by rw [← hja, hjk, ← hc]))
    · simp [hg] at hla

/-- C5 (amended): when history tracking (`generate_graph`) is requested,
the histories returned by `calculate_staked_pool` have length
`totalDays - 1`, one start-of-day snapshot per loop day `1 … totalDays-1`
taken before that day's updates (so entry `k` is the numeric state after
`k` updates; entry 0 is the day-0 initial state, which is not recorded
separately before the loop); when tracking is not requested both histories
are empty.  (The claimed length `totalDays` is refuted by
`c5_history_length_counterexample`.) -/
theorem c5_history_snapshots (pool : StakedCardanoPool) (args : CommandOptions)
    (r : StakedCardanoPoolResult)
    (h : calculate_staked_pool pool args = some r) :
    (args.generate_graph = true →
      r.amount_historical.length = totalDays pool - 1 ∧
      r.price_historical.length = totalDays pool - 1 ∧
      (∀ k a, r.amount_historical[k]? = some a → a = (numState pool k).ada) ∧
      (∀ k p, r.price_historical[k]? = some p → p = (numState pool k).price)) ∧
    (args.generate_graph = false →
      r.amount_historical = [] ∧ r.price_historical = []) := by
  have hr := calculate_some_inv pool args r h
  subst hr
  constructor
  · intro hg
    refine ⟨by simp [hg], by simp [hg], ?_, ?_⟩ <;>
      · intro k v hkv
        simp only [hg, if_true, List.getElem?_map, Option.map_eq_some'] at hkv
        obtain ⟨j, hj, hjv⟩ := hkv
        obtain ⟨hjk, _⟩ := range_getElem?_inv hj
        rw [← hjv, hjk]
  · intro hg
    simp [hg]

section

set_option allowUnsafeReducibility true
set_option maxRecDepth 1000000
attribute [local semireducible] Rat.add Rat.mul Rat.sub Rat.div Rat.inv Rat.neg

/-- Witness for `c1_payout_rule` at day 5 with `epoch_in_days = 5`. -/
theorem c1_payout_rule_witness :
    ∃ s2 : SimState, dayStep c1wpool c1wargs 5 c1ws = some s2 ∧
      s2.ada = (if 0 < 5 ∧ 5 % c1wpool.epoch_in_days = 0 then
                  c1ws.ada + c1ws.ada_per_year / epochsPerYear c1wpool else c1ws.ada) ∧
      s2.ada_per_year = (if 0 < 5 ∧ 5 % c1wpool.epoch_in_days = 0 then
                  s2.ada * c1wpool.annual_yield else c1ws.ada_per_year) ∧
      s2.price = c1ws.price * c1wpool.price_yield ∧
      epochsPerYear c1wpool = (365.25 : ℚ) / (c1wpool.epoch_in_days : ℚ) :=
  c1_payout_rule c1wpool c1wargs 5 c1ws (by decide)

/-- Witness for `c3_price_trajectory` on a 366-day run. -/
theorem c3_price_trajectory_witness :
    c3wr.final_ada_price =
      c3wpool.initial_price * c3wpool.price_yield ^ (totalDays c3wpool - 1) :=
  (c3_price_trajectory c3wpool c3wargs c3wr (by decide)).1

/-- C4 (counterexample): with `annual_yield = -1`, `epoch_in_days = 5` and
`years_holding = 1`, the recorded balance at index 5 (start of day 6) is
strictly below the balance at index 4 (start of day 5): the balance is not
monotonically non-decreasing for every configuration. -/
theorem c4_monotone_counterexample :
    (calculate_staked_pool c4pool c4args).map
        (fun r => (r.amount_historical[4]?, r.amount_historical[5]?)) =
      some (some 1000, some (1000 - 20000 / 1461)) ∧
    ¬ ((1000 : ℚ) ≤ 1000 - 20000 / 1461) := by
  refine ⟨by decide, by norm_num⟩

/-- Witness for `c4_balance_monotone` on a full 366-day run with history
tracking on and payouts that strictly increase the balance. -/
theorem c4_balance_monotone_witness :
    c4wpool.ada ≤ c4wr.final_ada_amount :=
  ((c4_balance_monotone c4wpool c4wargs c4wr (by decide)).1
    (by norm_num [c4wpool]) (by norm_num [c4wpool])).1

/-- C5 (counterexample): with `years_holding = 1` and history tracking on,
both histories have length 365 while the total simulated day count is 366:
the history length does not equal the total number of simulated days. -/
theorem c5_history_length_counterexample :
    (calculate_staked_pool c5pool c5args).map
        (fun r => (r.amount_historical.length, r.price_historical.length)) =
      some (365, 365) ∧
    totalDays c5pool = 366 ∧ (365 : Nat) ≠ 366 :=
  ⟨by decide, rfl, by decide⟩

/-- Witness for `c5_history_snapshots` on a 366-day run with history
tracking enabled. -/
theorem c5_history_snapshots_witness :
    c5wr.amount_historical.length = totalDays c5pool - 1 :=
  ((c5_history_snapshots c5pool c5args c5wr (by decide)).1 rfl).1

/-- C6 (the code, contrary to the claim): a configuration with
`epoch_in_days = 0` is not rejected before the loop.  With
`years_holding = 1` the first loop iteration evaluates `day % 0`, which
panics in Rust (`none` here); with `years_holding = 0` the loop body never
runs and the simulation completes normally, so no validation of
`epoch_in_days` exists anywhere. -/
theorem c6_epoch_zero_panics :
    calculate_staked_pool c6pool c6args = none ∧
    calculate_staked_pool c6pool0 c6args =
      some { final_ada_amount := c6pool0.ada, final_ada_price := c6pool0.initial_price,
             amount_historical := [], price_historical := [], days_as_float := 1 } :=
  ⟨by decide, by decide⟩

/-- C7 (the code, partly contrary to the claim): with a zero principal
amount the run completes (no panic) and the final balance is 0, but the
divisor `initial_price * ada` of `yield_as_percentage` is 0, so the Rust
`f64` division yields NaN which flows into the printed `Gainz:` line; the
code has no "N/A" sentinel path. -/
theorem c7_zero_principal_no_sentinel :
    (calculate_staked_pool c7pool c7args).map (fun r => r.final_ada_amount) = some 0 ∧
    yield_divisor_is_zero c7pool :=
  ⟨by decide, by decide⟩

end

/-- Witness for `c8_zero_years_identity`. -/
theorem c8_zero_years_identity_witness :
    totalDays c8wpool = 1 ∧
    calculate_staked_pool c8wpool c8wargs =
      some { final_ada_amount := c8wpool.ada, final_ada_price := c8wpool.initial_price,
             amount_historical := [], price_historical := [], days_as_float := 1 } :=
  c8_zero_years_identity c8wpool c8wargs rfl
